import Mathlib

/-!
Verification model for `src/backend/app.py` (a minimal Flask backend).

The module defines three request handlers:

* `hello` — `GET /api/hello`, returns `jsonify({"message": "Hello from Flask!"})`;
* `hello_image` — `GET /api/hello-image`, returns
  `send_file(<backend dir>/hello_world.png, mimetype="image/png")`;
* `serve_react` — the catch-all route (`"/"` with default `path=""` and
  `"/<path:path>"`): if `path` is truthy and `os.path.exists(join(static_dir, path))`
  it returns `send_from_directory(static_dir, path)`, otherwise
  `send_from_directory(static_dir, "index.html")`.

The embedding below models:

* a POSIX path as a list of `/`-separated segments (each segment is a nonempty
  string without `/`; `".."` and `"."` are ordinary segments until resolution);
* the filesystem as a partial map from absolute, fully resolved paths to nodes
  (regular file with its byte content, or directory); real filesystems are
  prefix-closed (a child exists only under a directory) but the model does not
  need to assume this except where stated;
* `os.path.exists` as the kernel's path walk (`walkFrom`): each `".."`/`"."`
  component requires the current base to be an existing directory, so a dangling
  intermediate component makes the walk fail;
* Werkzeug's `safe_join` as: normalize the relative path like
  `posixpath.normpath` (`normRel`), then reject it when the normalized result
  starts with a `".."` segment (the `filename == ".."` / `startswith("../")`
  checks);
* Flask's `send_from_directory` as: `safe_join`, then 404 unless a regular file
  sits at the joined path, then a 200 response carrying the file's bytes with a
  content type guessed from the served file name's extension;
* Flask's `send_file` on a literal path as: a 200 response with the given
  mimetype when a regular file is at the path; otherwise the `os.stat`/`open`
  call inside `werkzeug.utils.send_file` raises `FileNotFoundError` (or
  `IsADirectoryError`), which no handler converts to 404, so the request fails
  with an HTTP 500 internal server error.
-/

/-- A path segment: a nonempty string not containing `/`. -/
abbrev Seg := String

/-- An absolute, fully resolved path: the list of segments below the
filesystem root `[]`. -/
abbrev AbsPath := List Seg

/-- A filesystem node: a regular file with its content (bytes, modelled as a
string), or a directory. -/
inductive Node where
  | file (content : String)
  | dir
deriving DecidableEq

/-- The filesystem: a partial map from absolute resolved paths to nodes. -/
structure FS where
  lookup : AbsPath → Option Node

/-- An HTTP response produced by a handler, as the claims observe it:
a 200 response with a body and a content type, a 404 NotFound, or a 500
internal server error (an exception that escaped the handler). -/
inductive Response where
  | ok (body : String) (contentType : String)
  | notFound
  | internalError
deriving DecidableEq

/-- The HTTP status code of a response. -/
def Response.status : Response → Nat
  | .ok _ _ => 200
  | .notFound => 404
  | .internalError => 500

/-- Scan of a file name's characters for `os.path.splitext`'s extension: the
characters after the last dot, where leading dots never start an extension
(`".hidden"` has none). `seen` records that a non-dot character has occurred. -/
def extOfAux : List Char → Bool → Option (List Char) → Option (List Char)
  | [], _, acc => acc
  | c :: rest, seen, acc =>
    if c = '.' then
      if seen then extOfAux rest seen (some [])
      else extOfAux rest seen acc
    else
      extOfAux rest true (match acc with
        | none => none
        | some l => some (l ++ [c]))

/-- The extension of a file name (without the dot), as
`os.path.splitext` delimits it; `none` when there is none. -/
def extOf (name : String) : Option String :=
  match extOfAux name.data false none with
  | none => none
  | some l => some (String.mk l)

/-- `mimetypes.guess_type` as Flask's `send_file` uses it: the content type is
chosen from the extension of the served file name (the part after the last
dot), defaulting to `application/octet-stream`. -/
def guess_mimetype (name : String) : String :=
  match extOf name with
  | none => "application/octet-stream"
  | some e =>
    match e with
    | "html" => "text/html"
    | "htm" => "text/html"
    | "js" => "text/javascript"
    | "css" => "text/css"
    | "png" => "image/png"
    | "json" => "application/json"
    | "svg" => "image/svg+xml"
    | "ico" => "image/vnd.microsoft.icon"
    | _ => "application/octet-stream"

/-- `posixpath.normpath` on a relative path, accumulator form: `""` aside
(segments are nonempty by convention), drop `"."`; on `".."` pop the last
accumulated segment unless the accumulator is empty or already ends in `".."`,
in which case the `".."` is kept. The result has all `".."` segments at the
front. -/
def normRelAux : List Seg → List Seg → List Seg
  | acc, [] => acc
  | acc, s :: rest =>
    if s = "." then normRelAux acc rest
    else if s = ".." then
      match acc.getLast? with
      | none => normRelAux (acc ++ [".."]) rest
      | some t => if t = ".." then normRelAux (acc ++ [".."]) rest
                  else normRelAux acc.dropLast rest
    else normRelAux (acc ++ [s]) rest

/-- `posixpath.normpath` on a relative path given as segments. -/
def normRel (p : List Seg) : List Seg := normRelAux [] p

/-- Purely lexical resolution of a relative path against an absolute base, the
way the kernel resolves `".."` and `"."` in an absolute path (no symlinks):
`".."` pops one segment and is clamped at the root. This is what
`os.path.join(static_dir, path)` denotes once the OS resolves it. -/
def resolveFrom (base : AbsPath) : List Seg → AbsPath
  | [] => base
  | s :: rest =>
    if s = ".." then resolveFrom base.dropLast rest
    else if s = "." then resolveFrom base rest
    else resolveFrom (base ++ [s]) rest

/-- The kernel's path walk underlying `os.path.exists` / `os.path.isfile`:
starting from an existing base, each component steps through the filesystem;
stepping (including `".."` and `"."`) requires the current base to be an
existing directory. Returns the resolved absolute path when every step
succeeds and the final target exists. -/
def walkFrom (fs : FS) (base : AbsPath) : List Seg → Option AbsPath
  | [] => if (fs.lookup base).isSome then some base else none
  | s :: rest =>
    match fs.lookup base with
    | some Node.dir =>
      if s = ".." then walkFrom fs base.dropLast rest
      else if s = "." then walkFrom fs base rest
      else walkFrom fs (base ++ [s]) rest
    | _ => none

/-- `os.path.exists(join(base, p))`: the walk reaches an existing node. -/
def os_path_exists (fs : FS) (base : AbsPath) (p : List Seg) : Bool :=
  (walkFrom fs base p).isSome

/-- `werkzeug.security.safe_join(directory, filename)`: normalize `filename`
with `posixpath.normpath`; reject it (`None`) when the result is `".."` or
starts with `"../"` (in segments: its head is `".."`); otherwise join it onto
`directory`. An accepted result never leaves `directory`. (The absolute-path
and alternative-separator rejections of the original are not representable in
the segment model: a segment list is never absolute and segments contain no
separators.) -/
def safe_join (directory : AbsPath) (filename : List Seg) : Option AbsPath :=
  let nf := normRel filename
  if nf.head? = some ".." then none
  else some (directory ++ nf)

/-- `flask.send_from_directory(directory, path)`: `safe_join`, 404 (`NotFound`)
when it rejects; then 404 unless a regular file is at the joined path (when the
normalized relative part is empty the joined path is `directory + "/."`, which
is never a regular file); otherwise a 200 response with the file's bytes and a
content type guessed from the served file name. -/
def send_from_directory (fs : FS) (directory : AbsPath) (p : List Seg) : Response :=
  match safe_join directory p with
  | none => Response.notFound
  | some target =>
    if target = directory then Response.notFound
    else
      match fs.lookup target with
      | some (Node.file c) => Response.ok c (guess_mimetype (target.getLastD ""))
      | _ => Response.notFound

/-- `flask.send_file(path, mimetype=m)` on a literal path: a 200 response with
the file's bytes and the explicit mimetype when a regular file is at `path`;
otherwise `werkzeug.utils.send_file`'s `os.stat`/`open` raises
(`FileNotFoundError` / `IsADirectoryError`), which nothing converts to a 404,
so the request fails with an HTTP 500 internal server error. -/
def send_file (fs : FS) (path : AbsPath) (mimetype : String) : Response :=
  match fs.lookup path with
  | some (Node.file c) => Response.ok c mimetype
  | _ => Response.internalError

/-- An HTTP request as the handlers can observe it: a path (as segments) and
query parameters. -/
structure Request where
  path : List Seg
  query : List (String × String)

/-- A minimal JSON value, enough for the fixed greeting object. -/
inductive Json where
  | str (s : String)
  | obj (fields : List (String × Json))

/-- Serialization of a JSON value with `json.dumps`'s default separators
`(", ", ": ")`, as Flask's `jsonify` renders a response body. -/
def Json.render : Json → String
  | .str s => "\"" ++ s ++ "\""
  | .obj fields => "\x7b" ++ String.intercalate ", " (renderFields fields) ++ "\x7d"
where
  renderFields : List (String × Json) → List String
    | [] => []
    | (k, v) :: rest => ("\"" ++ k ++ "\": " ++ v.render) :: renderFields rest

/-- `flask.jsonify(v)`: a 200 response whose body is the serialized JSON value
with content type `application/json`. -/
def jsonify (v : Json) : Response :=
  Response.ok v.render "application/json"

/-- The constant JSON value returned by the `/api/hello` handler. -/
def helloMessage : Json := Json.obj [("message", Json.str "Hello from Flask!")]

/-- `hello()` (`@app.route("/api/hello", methods=["GET"])`):
`return jsonify({"message": "Hello from Flask!"})`. The request (in
particular its query string) is never consulted. -/
def hello (_req : Request) : Response :=
  jsonify helloMessage

/-- `hello_image()` (`@app.route("/api/hello-image", methods=["GET"])`):
`image_path = os.path.join(os.path.dirname(__file__), "hello_world.png")`;
`return send_file(image_path, mimetype="image/png")`. `backendDir` is the
resolved directory containing `app.py`. -/
def hello_image (fs : FS) (backendDir : AbsPath) : Response :=
  send_file fs (backendDir ++ ["hello_world.png"]) "image/png"

/-- `serve_react(path)`: with `static_dir = app.static_folder` (the resolved
asset root), `file_path = os.path.join(static_dir, path)`;
`if path and os.path.exists(file_path): return send_from_directory(static_dir, path)`;
`return send_from_directory(static_dir, "index.html")`. The conjunction is
short-circuit: for the empty path the existence check is never performed, which
the nesting below preserves. -/
def serve_react (fs : FS) (root : AbsPath) (path : List Seg) : Response :=
  if path = [] then send_from_directory fs root ["index.html"]
  else if os_path_exists fs root path then send_from_directory fs root path
  else send_from_directory fs root ["index.html"]

/-! ### Lemmas relating the kernel walk, lexical resolution and normalization -/

theorem head?_dropLast_of_getLast?_ne {l : List Seg} {a : Seg}
    (h1 : l.head? = some a) (h2 : l.getLast? ≠ some a) :
    l.dropLast.head? = some a := by
  match l with
  | [] => simp at h1
  | [x] => simp at h1; simp [h1] at h2
  | x :: y :: t =>
    simp at h1
    simp [List.dropLast, h1]

/-- A leading `".."` in the accumulator survives normalization: `normRelAux`
never pops below it. -/
theorem normRelAux_head_dotdot (p : List Seg) :
    ∀ acc : List Seg, acc.head? = some ".." →
    (normRelAux acc p).head? = some ".." := by
  induction p with
  | nil => intro acc h; simpa [normRelAux] using h
  | cons s rest ih =>
    intro acc h
    by_cases hdot : s = "."
    · rw [show normRelAux acc (s :: rest) = normRelAux acc rest by
        simp [normRelAux, hdot]]
      exact ih acc h
    · by_cases hdd : s = ".."
      · cases hl : acc.getLast? with
        | none =>
          cases acc with
          | nil => simp at h
          | cons a as => simp at hl
        | some t =>
          by_cases ht : t = ".."
          · rw [show normRelAux acc (s :: rest) = normRelAux (acc ++ [".."]) rest by
              simp [normRelAux, hdot, hdd, hl, ht]]
            refine ih _ ?_
            cases acc with
            | nil => simp at h
            | cons a as => simp at h; simp [h]
          · rw [show normRelAux acc (s :: rest) = normRelAux acc.dropLast rest by
              simp [normRelAux, hdot, hdd, hl, ht]]
            refine ih _ (head?_dropLast_of_getLast?_ne h ?_)
            rw [hl]; simp
            intro he; exact ht he
      · rw [show normRelAux acc (s :: rest) = normRelAux (acc ++ [s]) rest by
          simp [normRelAux, hdot, hdd]]
        refine ih _ ?_
        cases acc with
        | nil => simp at h
        | cons a as => simp at h; simp [h]

/-- When the accumulator holds no `".."`/`"."` and the normalized result does
not start with `".."`, clamped lexical resolution agrees with appending the
normalized relative path. -/
theorem resolveFrom_normRelAux (p : List Seg) :
    ∀ (acc base : List Seg),
    (∀ a ∈ acc, a ≠ ".." ∧ a ≠ ".") →
    (normRelAux acc p).head? ≠ some ".." →
    resolveFrom (base ++ acc) p = base ++ normRelAux acc p := by
  induction p with
  | nil => intro acc base _ _; simp [resolveFrom, normRelAux]
  | cons s rest ih =>
    intro acc base hacc hnd
    by_cases hdot : s = "."
    · rw [show normRelAux acc (s :: rest) = normRelAux acc rest by
        simp [normRelAux, hdot]] at hnd ⊢
      rw [show resolveFrom (base ++ acc) (s :: rest) = resolveFrom (base ++ acc) rest by
        simp [resolveFrom, hdot]]
      exact ih acc base hacc hnd
    · by_cases hdd : s = ".."
      · rcases List.eq_nil_or_concat acc with hnil | ⟨as, t, rfl⟩
        · subst hnil
          rw [show normRelAux ([] : List Seg) (s :: rest) = normRelAux [".."] rest by
            simp [normRelAux, hdot, hdd]] at hnd
          exact absurd (normRelAux_head_dotdot rest [".."] rfl) hnd
        · simp only [List.concat_eq_append] at hacc hnd ⊢
          have ht : t ≠ ".." ∧ t ≠ "." := hacc t (by simp)
          have hl : (as ++ [t]).getLast? = some t := by
            simp [List.getLast?_concat]
          rw [show normRelAux (as ++ [t]) (s :: rest) = normRelAux as rest by
            simp [normRelAux, hdot, hdd, hl, ht.1]] at hnd ⊢
          rw [show resolveFrom (base ++ (as ++ [t])) (s :: rest)
              = resolveFrom (base ++ as) rest by
            rw [show base ++ (as ++ [t]) = (base ++ as) ++ [t] by simp]
            simp [resolveFrom, hdd, List.dropLast_concat]]
          exact ih as base (fun a ha => hacc a (by simp [ha])) hnd
      · rw [show normRelAux acc (s :: rest) = normRelAux (acc ++ [s]) rest by
          simp [normRelAux, hdot, hdd]] at hnd ⊢
        rw [show resolveFrom (base ++ acc) (s :: rest)
            = resolveFrom (base ++ (acc ++ [s])) rest by
          simp [resolveFrom, hdot, hdd, List.append_assoc]]
        refine ih (acc ++ [s]) base ?_ hnd
        intro a ha
        rcases List.mem_append.mp ha with h1 | h1
        · exact hacc a h1
        · simp at h1; subst h1; exact ⟨hdd, hdot⟩

/-- For a request path whose normalization does not escape (no leading `".."`),
lexical resolution against the root is the root extended by the normalized
relative path. -/
theorem resolveFrom_eq_append_normRel {p : List Seg} (base : List Seg)
    (h : (normRel p).head? ≠ some "..") :
    resolveFrom base p = base ++ normRel p := by
  have := resolveFrom_normRelAux p [] base (by simp) (by simpa [normRel] using h)
  simpa [normRel] using this

/-- A successful kernel walk lands exactly at the lexical resolution of the
path. -/
theorem walkFrom_eq_resolveFrom (fs : FS) (p : List Seg) :
    ∀ base q, walkFrom fs base p = some q → q = resolveFrom base p := by
  induction p with
  | nil =>
    intro base q h
    by_cases hb : (fs.lookup base).isSome
    · simp [walkFrom, hb] at h; simp [resolveFrom, h]
    · simp [walkFrom, hb] at h
  | cons s rest ih =>
    intro base q h
    cases hb : fs.lookup base with
    | none => simp [walkFrom, hb] at h
    | some n =>
      cases n with
      | file c => simp [walkFrom, hb] at h
      | dir =>
        by_cases hdd : s = ".."
        · rw [show walkFrom fs base (s :: rest) = walkFrom fs base.dropLast rest by
            simp [walkFrom, hb, hdd]] at h
          rw [show resolveFrom base (s :: rest) = resolveFrom base.dropLast rest by
            simp [resolveFrom, hdd]]
          exact ih _ _ h
        · by_cases hdot : s = "."
          · rw [show walkFrom fs base (s :: rest) = walkFrom fs base rest by
              simp [walkFrom, hb, hdd, hdot]] at h
            rw [show resolveFrom base (s :: rest) = resolveFrom base rest by
              simp [resolveFrom, hdd, hdot]]
            exact ih _ _ h
          · rw [show walkFrom fs base (s :: rest) = walkFrom fs (base ++ [s]) rest by
              simp [walkFrom, hb, hdd, hdot]] at h
            rw [show resolveFrom base (s :: rest) = resolveFrom (base ++ [s]) rest by
              simp [resolveFrom, hdd, hdot]]
            exact ih _ _ h

/-- A walk that still has a component to consume starts at an existing
directory. -/
theorem walkFrom_cons_dir {fs : FS} {base : AbsPath} {s : Seg} {rest : List Seg}
    {q : AbsPath} (h : walkFrom fs base (s :: rest) = some q) :
    fs.lookup base = some Node.dir := by
  cases hb : fs.lookup base with
  | none => simp [walkFrom, hb] at h
  | some n =>
    cases n with
    | dir => rfl
    | file c => simp [walkFrom, hb] at h

/-! ### Module execution order and routing table (for the `__main__` path) -/

/-- The handler functions the module can attach to routes. `staticFiles` is
Flask's built-in static view, registered at `Flask(...)` construction because
`static_folder` is set (with `static_url_path=""` its rule is
`/<path:filename>`). -/
inductive HandlerId where
  | hello
  | helloImage
  | serveReact
  | staticFiles
deriving DecidableEq

/-- A registered route: a Werkzeug rule string and the handler it maps to. -/
structure Route where
  rule : String
  handler : HandlerId
deriving DecidableEq

/-- A top-level effect of executing `app.py`: registering a route, or entering
`app.run(...)` (which serves requests until the process stops). -/
inductive Step where
  | register (rule : String) (h : HandlerId)
  | run
deriving DecidableEq

/-- The top-level effects of `app.py` in source order when executed as the
main program: the `Flask(...)` call registers the static route (line 6), the
decorators at lines 14 and 19 register the API routes, line 27's
`__name__ == "__main__"` guard is true so line 28 enters `app.run(...)`, and
only after the server stops do the decorators at lines 32-33 register the
catch-all routes for `serve_react`. -/
def moduleMainSteps : List Step :=
  [ Step.register "/<path:filename>" HandlerId.staticFiles,
    Step.register "/api/hello" HandlerId.hello,
    Step.register "/api/hello-image" HandlerId.helloImage,
    Step.run,
    Step.register "/" HandlerId.serveReact,
    Step.register "/<path:path>" HandlerId.serveReact ]

/-- The routing table in effect while `app.run` serves requests: the routes
registered by the steps preceding the first `run` step. -/
def tableAtRun : List Step → List Route
  | [] => []
  | Step.run :: _ => []
  | Step.register r h :: rest => ⟨r, h⟩ :: tableAtRun rest

/-- All routes a full execution of the module body would register (the table a
plain import produces). -/
def tableAll : List Step → List Route
  | [] => []
  | Step.run :: rest => tableAll rest
  | Step.register r h :: rest => ⟨r, h⟩ :: tableAll rest

/-- Whether a Werkzeug rule matches a URL path. The fixed rules match exactly
their own text; a `/<path:...>` rule matches any URL whose part after the
leading slash is nonempty and does not itself start with a slash (the `path`
converter accepts everything else, slashes included). -/
def ruleMatches (rule url : String) : Bool :=
  if rule = "/<path:path>" ∨ rule = "/<path:filename>" then
    match url.data with
    | '/' :: c :: _ => c != '/'
    | _ => false
  else rule == url

/-- First-match dispatch over a routing table. -/
def dispatch (table : List Route) (url : String) : Option HandlerId :=
  match table with
  | [] => none
  | r :: rest => if ruleMatches r.rule url then some r.handler else dispatch rest url

/-! ### The imported application: all routes live, requests in sequence -/

/-- The full application's routing once the module body has run to completion
(the imported-module configuration): the fixed API paths, then the catch-all.
`root` is the resolved asset root, `backendDir` the resolved directory of
`app.py`. -/
def handle (fs : FS) (root backendDir : AbsPath) (req : Request) : Response :=
  if req.path = ["api", "hello"] then hello req
  else if req.path = ["api", "hello-image"] then hello_image fs backendDir
  else serve_react fs root req.path

/-- The server state later requests can observe. The handlers read the
filesystem and write nothing, so it is the only state there is. -/
structure ServerState where
  fs : FS

/-- One request handled against the server state: the response, and the state
as later requests see it. None of the three handler bodies assigns to any
shared object, so the state passes through unchanged. -/
def handleStep (root backendDir : AbsPath) (s : ServerState) (req : Request) :
    Response × ServerState :=
  (handle s.fs root backendDir req, s)

/-- A sequence of requests handled in order, threading the server state. -/
def runServer (root backendDir : AbsPath) (s : ServerState) :
    List Request → List Response × ServerState
  | [] => ([], s)
  | r :: rs =>
    let p := handleStep root backendDir s r
    let q := runServer root backendDir p.2 rs
    (p.1 :: q.1, q.2)

/-! ### Disclosure predicate and concrete filesystems -/

/-- The response discloses nothing from outside `root`: it is an error
response, or its body is the content of a file stored at a path at or below
`root`. -/
def servesWithinRoot (fs : FS) (root : AbsPath) : Response → Prop
  | Response.ok b _ => ∃ rel : List Seg, fs.lookup (root ++ rel) = some (Node.file b)
  | Response.notFound => True
  | Response.internalError => True

/-- A concrete filesystem: asset root `/dist` holding `index.html`, `app.js`
and a subdirectory `assets`, and a file `/secret.txt` outside the asset root.
The fixed image `/backend/hello_world.png` is absent. -/
def exFS : FS := ⟨fun p =>
  if p = [] then some Node.dir
  else if p = ["dist"] then some Node.dir
  else if p = ["dist", "index.html"] then some (Node.file "<html>spa</html>")
  else if p = ["dist", "app.js"] then some (Node.file "console.log(1);")
  else if p = ["dist", "assets"] then some Node.dir
  else if p = ["backend"] then some Node.dir
  else if p = ["secret.txt"] then some (Node.file "top secret")
  else none⟩

/-- The asset root used with `exFS` and its variants. -/
def exRoot : AbsPath := ["dist"]

/-- A filesystem whose asset root exists but lacks `index.html`. -/
def exFSNoIndex : FS := ⟨fun p =>
  if p = [] then some Node.dir
  else if p = ["dist"] then some Node.dir
  else none⟩

/-- A filesystem holding only the entry `/dist/index.html` — not even the
root directories exist. -/
def exFSIndexOnly : FS := ⟨fun p =>
  if p = ["dist", "index.html"] then some (Node.file "<html>spa</html>")
  else none⟩

/-- A filesystem where the fixed image `/backend/hello_world.png` is present. -/
def exFSImage : FS := ⟨fun p =>
  if p = [] then some Node.dir
  else if p = ["backend"] then some Node.dir
  else if p = ["backend", "hello_world.png"] then some (Node.file "PNGBYTES")
  else none⟩

/-! ### Helper lemmas about `send_from_directory` and `serve_react` -/

theorem append_ne_self_of_ne_nil {l m : List Seg} (hm : m ≠ []) : l ++ m ≠ l := by
  intro h
  apply hm
  have hlen := congrArg List.length h
  simp at hlen
  exact hlen

/-- `send_from_directory` on a path whose normalization is accepted and hits a
regular file serves that file with the guessed content type. -/
theorem send_from_directory_file {fs : FS} {dir : AbsPath} {p : List Seg} {c : String}
    (hsafe : (normRel p).head? ≠ some "..")
    (hne : normRel p ≠ [])
    (hf : fs.lookup (dir ++ normRel p) = some (Node.file c)) :
    send_from_directory fs dir p
      = Response.ok c (guess_mimetype ((dir ++ normRel p).getLastD "")) := by
  have htarget : dir ++ normRel p ≠ dir := append_ne_self_of_ne_nil hne
  simp [send_from_directory, safe_join, hsafe, htarget, hf]

/-- Whatever `send_from_directory` answers, it discloses nothing from outside
the directory. -/
theorem send_from_directory_within (fs : FS) (dir : AbsPath) (p : List Seg) :
    servesWithinRoot fs dir (send_from_directory fs dir p) := by
  by_cases hsafe : (normRel p).head? = some ".."
  · simp [send_from_directory, safe_join, hsafe, servesWithinRoot]
  · by_cases htarget : dir ++ normRel p = dir
    · simp [send_from_directory, safe_join, hsafe, htarget, servesWithinRoot]
    · cases hl : fs.lookup (dir ++ normRel p) with
      | none => simp [send_from_directory, safe_join, hsafe, htarget, hl, servesWithinRoot]
      | some n =>
        cases n with
        | dir => simp [send_from_directory, safe_join, hsafe, htarget, hl, servesWithinRoot]
        | file c =>
          simp [send_from_directory, safe_join, hsafe, htarget, hl, servesWithinRoot]
          exact ⟨normRel p, hl⟩

/-- Every `serve_react` answer is a `send_from_directory` answer against the
asset root, hence discloses nothing from outside it. -/
theorem serve_react_within (fs : FS) (root : AbsPath) (p : List Seg) :
    servesWithinRoot fs root (serve_react fs root p) := by
  by_cases hp : p = []
  · simpa [serve_react, hp] using send_from_directory_within fs root ["index.html"]
  · by_cases hex : os_path_exists fs root p
    · simpa [serve_react, hp, hex] using send_from_directory_within fs root p
    · simpa [serve_react, hp, hex] using send_from_directory_within fs root ["index.html"]

/-! ### Claim C1 -/

/-- C1, counterexample. The claim reads: for every non-empty request path `p`
such that a regular file exists at `join(AssetRoot, p)`, `serve_react` returns
that file's bytes. At `p = "../secret.txt"` a regular file does exist at
`join("/dist", "../secret.txt") = "/secret.txt"` (so `os.path.exists` is true
and the file-serving branch is taken), yet `send_from_directory`'s `safe_join`
rejects the escaping path and the response is a 404, not the file's bytes. -/
theorem serve_react_existing_file_counterexample :
    walkFrom exFS exRoot ["..", "secret.txt"] = some ["secret.txt"] ∧
    exFS.lookup ["secret.txt"] = some (Node.file "top secret") ∧
    serve_react exFS exRoot ["..", "secret.txt"] = Response.notFound ∧
    (serve_react exFS exRoot ["..", "secret.txt"]).status = 404 := by
  decide

/-- C1, amended: for every non-empty request path `p` such that a regular file
exists at `join(AssetRoot, p)` and whose normalization does not escape the
asset root (it has no leading `".."` once normalized), `serve_react` returns
exactly that file's bytes with the content type inferred from the served
file's extension. -/
theorem serve_react_serves_existing_file (fs : FS) (root : AbsPath)
    (p : List Seg) (q : AbsPath) (c : String)
    (hp : p ≠ [])
    (hw : walkFrom fs root p = some q)
    (hf : fs.lookup q = some (Node.file c))
    (hsafe : (normRel p).head? ≠ some "..") :
    serve_react fs root p = Response.ok c (guess_mimetype (q.getLastD "")) := by
  have hq : q = root ++ normRel p :=
    (walkFrom_eq_resolveFrom fs p root q hw).trans
      (resolveFrom_eq_append_normRel root hsafe)
  have hne : normRel p ≠ [] := by
    intro h0
    match p, hp with
    | s :: rest, _ =>
      have hd := walkFrom_cons_dir hw
      rw [hq, h0, List.append_nil] at hf
      rw [hf] at hd
      simp at hd
  have hex : os_path_exists fs root p = true := by
    simp [os_path_exists, hw]
  have hmain : serve_react fs root p = send_from_directory fs root p := by
    simp [serve_react, hp, hex]
  rw [hmain, send_from_directory_file hsafe hne (hq ▸ hf), ← hq]

/-- C1, witness: the amended theorem applied to the concrete filesystem
`exFS`, request path `"app.js"`. -/
theorem serve_react_serves_existing_file_witness :
    (["app.js"] : List Seg) ≠ [] ∧
    serve_react exFS exRoot ["app.js"]
      = Response.ok "console.log(1);"
          (guess_mimetype ((["dist", "app.js"] : AbsPath).getLastD "")) :=
  ⟨by decide,
   serve_react_serves_existing_file exFS exRoot ["app.js"] ["dist", "app.js"]
     "console.log(1);" (by decide) (by decide) (by decide) (by decide)⟩

/-! ### Claim C2 -/

/-- C2, counterexample. The claim reads: every GET path that does not match
any file under the asset root gets the fallback document, never an error. The
path `"assets"` matches no file (it names a subdirectory), yet
`os.path.exists` is true for directories, the file-serving branch is taken,
and `send_from_directory`'s `isfile` check fails: the response is a 404, not
the fallback document. -/
theorem serve_react_fallback_counterexample :
    exFS.lookup ["dist", "assets"] = some Node.dir ∧
    exFS.lookup ["dist", "index.html"] = some (Node.file "<html>spa</html>") ∧
    serve_react exFS exRoot ["assets"] = Response.notFound ∧
    Response.notFound ≠ Response.ok "<html>spa</html>" "text/html" := by
  decide

/-- C2, amended: for every GET request path `p` such that no filesystem entry
at all (file or directory) exists at `join(AssetRoot, p)` — `os.path.exists`
is false — the resolver returns the fallback document's bytes, provided the
fallback document `index.html` exists under the asset root. -/
theorem serve_react_fallback_on_unknown (fs : FS) (root : AbsPath)
    (p : List Seg) (c : String)
    (hw : walkFrom fs root p = none)
    (hidx : fs.lookup (root ++ ["index.html"]) = some (Node.file c)) :
    serve_react fs root p = Response.ok c "text/html" := by
  have hmain : serve_react fs root p = send_from_directory fs root ["index.html"] := by
    by_cases hp : p = []
    · simp [serve_react, hp]
    · simp [serve_react, hp, os_path_exists, hw]
  have hn : normRel ["index.html"] = (["index.html"] : List Seg) := by decide
  have hsend := @send_from_directory_file fs root ["index.html"] c
    (by rw [hn]; decide) (by rw [hn]; decide) (by rw [hn]; exact hidx)
  rw [hmain, hsend, hn]
  have hlast : ((root ++ ["index.html"] : AbsPath)).getLastD "" = "index.html" := by
    simp [List.getLastD_eq_getLast?, List.getLast?_concat]
  rw [hlast, show guess_mimetype "index.html" = "text/html" by decide]

/-- C2, witness: the amended theorem applied to `exFS` and the client-side
route `"dashboard/settings"`, which resolves to nothing on disk. -/
theorem serve_react_fallback_on_unknown_witness :
    walkFrom exFS exRoot ["dashboard", "settings"] = none ∧
    serve_react exFS exRoot ["dashboard", "settings"]
      = Response.ok "<html>spa</html>" "text/html" :=
  ⟨by decide,
   serve_react_fallback_on_unknown exFS exRoot ["dashboard", "settings"]
     "<html>spa</html>" (by decide) (by decide)⟩

/-! ### Claim C3 -/

/-- C3: a request path containing parent-directory segments never causes a
file outside the asset root to be returned — every `serve_react` response
either is an error response or carries the bytes of a file stored at or below
the asset root — and an escaping path (leading `".."` after normalization)
whose target exists on disk is rejected with a 404 instead of being served. -/
theorem serve_react_traversal_safe (fs : FS) (root : AbsPath) (p : List Seg)
    (hdd : ".." ∈ p) :
    servesWithinRoot fs root (serve_react fs root p) ∧
    ((normRel p).head? = some ".." → os_path_exists fs root p = true →
      serve_react fs root p = Response.notFound) := by
  refine ⟨serve_react_within fs root p, ?_⟩
  intro hesc hex
  have hp : p ≠ [] := by
    intro h; rw [h] at hdd; simp at hdd
  have hmain : serve_react fs root p = send_from_directory fs root p := by
    simp [serve_react, hp, hex]
  rw [hmain]
  simp [send_from_directory, safe_join, hesc]

/-- C3, witness: the theorem applied to `exFS` and the escaping path
`"../secret.txt"`, whose target `/secret.txt` exists outside the root. -/
theorem serve_react_traversal_safe_witness :
    (".." ∈ (["..", "secret.txt"] : List Seg)) ∧
    (servesWithinRoot exFS exRoot (serve_react exFS exRoot ["..", "secret.txt"]) ∧
     ((normRel ["..", "secret.txt"]).head? = some ".." →
      os_path_exists exFS exRoot ["..", "secret.txt"] = true →
      serve_react exFS exRoot ["..", "secret.txt"] = Response.notFound)) :=
  ⟨by decide, serve_react_traversal_safe exFS exRoot ["..", "secret.txt"] (by decide)⟩

/-! ### Claim C4 -/

/-- C4, counterexample. The claim reads: `GET /api/hello-image` returns a 404
NotFound when the fixed image file is absent. On a filesystem without
`/backend/hello_world.png` the handler calls `send_file` on the literal path;
`send_file` performs no existence check that maps to 404 — the missing file
surfaces as an uncaught `FileNotFoundError`, i.e. an HTTP 500, not a 404. -/
theorem hello_image_missing_counterexample :
    exFS.lookup (["backend"] ++ ["hello_world.png"]) = none ∧
    hello_image exFS ["backend"] = Response.internalError ∧
    (hello_image exFS ["backend"]).status = 500 ∧
    hello_image exFS ["backend"] ≠ Response.notFound := by
  decide

/-- C4, amended: `GET /api/hello-image` returns status 200 with the PNG file's
bytes and content type `image/png` when the fixed image file exists; when the
file is absent the unhandled `FileNotFoundError` from `send_file` produces an
HTTP 500 internal server error (not a 404). -/
theorem hello_image_behavior (fs : FS) (backendDir : AbsPath) :
    (∀ c, fs.lookup (backendDir ++ ["hello_world.png"]) = some (Node.file c) →
      hello_image fs backendDir = Response.ok c "image/png" ∧
      (hello_image fs backendDir).status = 200) ∧
    (fs.lookup (backendDir ++ ["hello_world.png"]) = none →
      hello_image fs backendDir = Response.internalError ∧
      (hello_image fs backendDir).status = 500) := by
  constructor
  · intro c hc
    simp [hello_image, send_file, hc, Response.status]
  · intro hc
    simp [hello_image, send_file, hc, Response.status]

/-- C4, witness: the amended theorem applied with the image present
(`exFSImage`) and absent (`exFS`). -/
theorem hello_image_behavior_witness :
    hello_image exFSImage ["backend"] = Response.ok "PNGBYTES" "image/png" ∧
    hello_image exFS ["backend"] = Response.internalError :=
  ⟨((hello_image_behavior exFSImage ["backend"]).1 "PNGBYTES" (by decide)).1,
   ((hello_image_behavior exFS ["backend"]).2 (by decide)).1⟩

/-! ### Claim C5 -/

/-- C5: for the empty request path, `serve_react` returns the fallback
document directly. The `if path and os.path.exists(...)` conjunction
short-circuits on the falsy empty string, so no existence check happens: the
answer is literally `send_from_directory(static_dir, "index.html")`, and it is
the same on any two filesystems that agree on the fallback document's entry —
in particular, no other filesystem entry (not even the asset root itself) is
consulted. -/
theorem serve_react_empty_path (fs1 fs2 : FS) (root : AbsPath)
    (h : fs1.lookup (root ++ ["index.html"]) = fs2.lookup (root ++ ["index.html"])) :
    serve_react fs1 root [] = send_from_directory fs1 root ["index.html"] ∧
    serve_react fs1 root [] = serve_react fs2 root [] := by
  have hn : normRel ["index.html"] = (["index.html"] : List Seg) := by decide
  have hne : root ++ (["index.html"] : List Seg) ≠ root :=
    append_ne_self_of_ne_nil (by decide)
  have hsend : send_from_directory fs1 root ["index.html"]
      = send_from_directory fs2 root ["index.html"] := by
    cases hl : fs2.lookup (root ++ ["index.html"]) with
    | none => simp [send_from_directory, safe_join, hn, hne, hl, h]
    | some n =>
      cases n with
      | dir => simp [send_from_directory, safe_join, hn, hne, hl, h]
      | file c => simp [send_from_directory, safe_join, hn, hne, hl, h]
  exact ⟨by simp [serve_react], by simp [serve_react, hsend]⟩

/-- C5, witness: the theorem applied to `exFS` and `exFSIndexOnly` — the
latter holds nothing but the entry `/dist/index.html` (even the root
directories are missing, so any existence check on the empty path would
answer differently), yet the responses coincide. -/
theorem serve_react_empty_path_witness :
    serve_react exFS exRoot [] = send_from_directory exFS exRoot ["index.html"] ∧
    serve_react exFS exRoot [] = serve_react exFSIndexOnly exRoot [] :=
  serve_react_empty_path exFS exFSIndexOnly exRoot (by decide)

/-! ### Claim C6 -/

/-- C6: when the fallback document `index.html` is missing under the asset
root and the request reaches the fallback branch (empty path, or nothing on
disk at the requested path), `serve_react` answers 404 NotFound. The model is
a single total function of the request: the failure is the request's final
answer, nothing retries it. -/
theorem serve_react_missing_fallback (fs : FS) (root : AbsPath) (p : List Seg)
    (hidx : fs.lookup (root ++ ["index.html"]) = none)
    (hb : p = [] ∨ walkFrom fs root p = none) :
    serve_react fs root p = Response.notFound ∧
    (serve_react fs root p).status = 404 := by
  have hmain : serve_react fs root p = send_from_directory fs root ["index.html"] := by
    rcases hb with h | h
    · simp [serve_react, h]
    · by_cases hp : p = []
      · simp [serve_react, hp]
      · simp [serve_react, hp, os_path_exists, h]
  have hn : normRel ["index.html"] = (["index.html"] : List Seg) := by decide
  have hne : root ++ (["index.html"] : List Seg) ≠ root :=
    append_ne_self_of_ne_nil (by decide)
  have hsend : send_from_directory fs root ["index.html"] = Response.notFound := by
    simp [send_from_directory, safe_join, hn, hne, hidx]
  rw [hmain, hsend]
  exact ⟨rfl, rfl⟩

/-- C6, witness: the theorem applied to `exFSNoIndex` (asset root present but
empty of `index.html`) at the root request path. -/
theorem serve_react_missing_fallback_witness :
    serve_react exFSNoIndex exRoot [] = Response.notFound ∧
    (serve_react exFSNoIndex exRoot []).status = 404 :=
  serve_react_missing_fallback exFSNoIndex exRoot [] (by decide) (Or.inl rfl)

/-! ### Claim C7 -/

/-- C7: `GET /api/hello` returns status 200 with body exactly the JSON object
`{"message": "Hello from Flask!"}` for every request — the handler never
reads the request, so query parameters cannot influence the answer. -/
theorem hello_always_greets (req : Request) :
    hello req
      = Response.ok "\x7b\"message\": \"Hello from Flask!\"\x7d" "application/json" ∧
    (hello req).status = 200 := by
  constructor
  · show jsonify helloMessage = _
    rw [jsonify, show helloMessage.render
        = "\x7b\"message\": \"Hello from Flask!\"\x7d" by decide]
  · rfl

/-! ### Claim C8 -/

/-- C8: when `app.py` runs as the main program, `app.run()` (line 28) is
entered before lines 32-34 register the catch-all routes, so the routing table
in effect for the whole life of that server holds no route bound to
`serve_react` — dispatching `GET /` finds nothing (and certainly not
`serve_react`) — while a full run of the module body (a plain import) would
register the two `serve_react` routes. -/
theorem serve_react_absent_at_main_run :
    ((tableAtRun moduleMainSteps).all
        (fun r => r.handler != HandlerId.serveReact)) = true ∧
    dispatch (tableAtRun moduleMainSteps) "/" = none ∧
    (⟨"/", HandlerId.serveReact⟩ : Route) ∈ tableAll moduleMainSteps ∧
    (⟨"/<path:path>", HandlerId.serveReact⟩ : Route) ∈ tableAll moduleMainSteps := by
  decide

/-! ### Claim C9 -/

/-- C9: a non-empty request path naming an existing directory under the asset
root makes `os.path.exists` true (the existence branch is taken), and
`send_from_directory`'s regular-file requirement then turns the request into a
404 NotFound — not the fallback document. -/
theorem serve_react_directory_404 (fs : FS) (root : AbsPath)
    (p : List Seg) (q : AbsPath)
    (hp : p ≠ [])
    (hw : walkFrom fs root p = some q)
    (hd : fs.lookup q = some Node.dir) :
    os_path_exists fs root p = true ∧
    serve_react fs root p = Response.notFound := by
  have hex : os_path_exists fs root p = true := by
    simp [os_path_exists, hw]
  refine ⟨hex, ?_⟩
  have hmain : serve_react fs root p = send_from_directory fs root p := by
    simp [serve_react, hp, hex]
  rw [hmain]
  by_cases hesc : (normRel p).head? = some ".."
  · simp [send_from_directory, safe_join, hesc]
  · have hq : q = root ++ normRel p :=
      (walkFrom_eq_resolveFrom fs p root q hw).trans
        (resolveFrom_eq_append_normRel root hesc)
    by_cases hnil : normRel p = []
    · simp [send_from_directory, safe_join, hesc, hnil]
    · have hne : root ++ normRel p ≠ root := append_ne_self_of_ne_nil hnil
      have hl : fs.lookup (root ++ normRel p) = some Node.dir := hq ▸ hd
      simp [send_from_directory, safe_join, hesc, hne, hl]

/-- C9, witness: the theorem applied to `exFS` and the path `"assets"`, which
names the subdirectory `/dist/assets`. -/
theorem serve_react_directory_404_witness :
    os_path_exists exFS exRoot ["assets"] = true ∧
    serve_react exFS exRoot ["assets"] = Response.notFound :=
  serve_react_directory_404 exFS exRoot ["assets"] ["dist", "assets"]
    (by decide) (by decide) (by decide)

/-! ### Claim C10 -/

/-- C10: the handlers are deterministic pure functions of the request and the
filesystem. Running any sequence of requests through the server leaves the
observable server state exactly as it started, and every response equals the
pure `handle` function applied to that request and the initial filesystem
alone — the same requests against the same filesystem yield the same
responses, in any order, with no cross-request memory. -/
theorem handlers_pure (root backendDir : AbsPath) (s : ServerState)
    (rs : List Request) :
    (runServer root backendDir s rs).2 = s ∧
    (runServer root backendDir s rs).1
      = rs.map (fun r => handle s.fs root backendDir r) := by
  induction rs with
  | nil => exact ⟨rfl, rfl⟩
  | cons r rest ih =>
    refine ⟨?_, ?_⟩
    · show (runServer root backendDir s rest).2 = s
      exact ih.1
    · show handle s.fs root backendDir r :: (runServer root backendDir s rest).1 = _
      rw [ih.2, List.map_cons]

/-- C7, witness: the theorem applied to a concrete request carrying query
parameters. -/
theorem hello_always_greets_witness :
    hello ⟨["api", "hello"], [("debug", "1"), ("q", "x")]⟩
      = Response.ok "\x7b\"message\": \"Hello from Flask!\"\x7d" "application/json" ∧
    (hello ⟨["api", "hello"], [("debug", "1"), ("q", "x")]⟩).status = 200 :=
  hello_always_greets ⟨["api", "hello"], [("debug", "1"), ("q", "x")]⟩

/-- C10, witness: the purity theorem applied to a concrete state and a
concrete two-request sequence. -/
theorem handlers_pure_witness :
    (runServer exRoot ["backend"] ⟨exFS⟩
        [⟨["api", "hello"], []⟩, ⟨["app.js"], []⟩]).2 = (⟨exFS⟩ : ServerState) ∧
    (runServer exRoot ["backend"] ⟨exFS⟩
        [⟨["api", "hello"], []⟩, ⟨["app.js"], []⟩]).1
      = [⟨["api", "hello"], []⟩, ⟨["app.js"], []⟩].map
          (fun r => handle exFS exRoot ["backend"] r) :=
  handlers_pure exRoot ["backend"] ⟨exFS⟩ [⟨["api", "hello"], []⟩, ⟨["app.js"], []⟩]
